import Mathlib

/-!
Shallow embedding of ppgan/datasets/base_dataset.py: the directory scanner
(scandir with its inner generator _scandir), the scan_folder static method,
and the BaseDataset indexing contract (__init__, __getitem__, __len__).
-/

namespace PaddleGanSpec

/-- File-system entry as seen by os.scandir: a regular file or a directory
with an ordered list of children (the enumeration order of os.scandir). -/
inductive FsEntry where
  | file (name : String)
  | dir (name : String) (children : List FsEntry)
  deriving Repr

/-- Name of a file-system entry. -/
def FsEntry.name : FsEntry → String
  | .file n => n
  | .dir n _ => n

/-- Python entry.name.startswith('.') for the one-character prefix used by the scanner. -/
def startsWithDot (s : String) : Bool :=
  match s.data with
  | [] => false
  | c :: _ => c == '.'

/-- Python s.endswith(suf) for a single string argument. -/
def strEndsWith (s suf : String) : Bool :=
  List.isSuffixOf suf.data s.data

/-- Validated suffix filter of scandir: a single string or a tuple of strings,
the two shapes accepted by the isinstance(suffix, (str, tuple)) check. -/
inductive PySuffix where
  | single (s : String)
  | multi (l : List String)
  deriving DecidableEq, Repr

/-- The yield test of _scandir: yield when suffix is None, otherwise when
rel_path.endswith(suffix); str.endswith with a tuple means any of them. -/
def suffixMatch : Option PySuffix → String → Bool
  | none, _ => true
  | some (.single s), rel => strEndsWith rel s
  | some (.multi l), rel => l.any (fun s => strEndsWith rel s)

/-- Result of os.path.relpath(entry.path, root) for an entry reached from the
original root: join the accumulated relative prefix with the entry name. -/
def joinRel (pre name : String) : String :=
  if pre = "" then name else pre ++ "/" ++ name

/-- The inner generator _scandir of base_dataset.py, fully consumed.
First component: the relative paths yielded, in enumeration order.  Second
component: true when consumption raises NotADirectoryError, which happens
because every entry that is not a non-hidden regular file falls to the else
branch, and under recursive=True that branch calls os.scandir on entry.path
whether or not the entry is a directory — a hidden file makes os.scandir
raise.  Hidden directories are likewise descended into under recursive=True. -/
def scanEntries (suffix : Option PySuffix) (recursive : Bool) : String → List FsEntry → List String × Bool
  | _, [] => ([], false)
  | pre, FsEntry.file name :: rest =>
    if startsWithDot name then
      if recursive then ([], true)
      else scanEntries suffix recursive pre rest
    else
      let rel := joinRel pre name
      let tail := scanEntries suffix recursive pre rest
      if suffixMatch suffix rel then (rel :: tail.1, tail.2) else tail
  | pre, FsEntry.dir name cs :: rest =>
    if recursive then
      let sub := scanEntries suffix recursive (joinRel pre name) cs
      if sub.2 then (sub.1, true)
      else
        let tail := scanEntries suffix recursive pre rest
        (sub.1 ++ tail.1, tail.2)
    else scanEntries suffix recursive pre rest

example : startsWithDot ".a" = true := by decide

example : strEndsWith "a.png" ".png" = true := by decide

example : scanEntries none false "" [] = ([], false) := by simp [scanEntries]

example : scanEntries none true "" [FsEntry.dir ".h" [FsEntry.file "x.png"]] = ([".h/x.png"], false) := by simp +decide [scanEntries]

example : scanEntries none true "" [FsEntry.file ".secret", FsEntry.file "a.png"] = ([], true) := by simp +decide [scanEntries]

example : scanEntries none false "" [FsEntry.file ".secret", FsEntry.file "a.png", FsEntry.dir "sub" [FsEntry.file "c.jpg"]] = (["a.png"], false) := by simp +decide [scanEntries]

/-- Python value passed for the dir_path, suffix or path argument of the
typed entry points scandir and scan_folder. -/
inductive PyVal where
  | vstr (s : String)
  | vpath (s : String)
  | vnone
  | vtuple (l : List String)
  | vset (l : List String)
  | vint (n : Int)
  | vlist (l : List String)
  deriving DecidableEq, Repr

/-- Python error raised by the embedded fragment. -/
inductive PyErr where
  | typeError
  | notADirectoryError
  | assertionError
  | indexError
  deriving DecidableEq, Repr

/-- The isinstance(dir_path, (str, Path)) test of scandir and the
isinstance(path, (str, Path)) test of scan_folder. -/
def isStrOrPath : PyVal → Bool
  | .vstr _ => true
  | .vpath _ => true
  | _ => false

/-- String carried by a str or Path value, after str(dir_path). -/
def strOfPyVal : PyVal → String
  | .vstr s => s
  | .vpath s => s
  | _ => ""

/-- The suffix validation of scandir: None passes, and otherwise the value
must satisfy isinstance(suffix, (str, tuple)) or TypeError is raised.  Tuple
elements are not themselves checked.  A set is not str and not tuple. -/
def parseSuffix : PyVal → Except PyErr (Option PySuffix)
  | .vnone => .ok none
  | .vstr s => .ok (some (.single s))
  | .vtuple l => .ok (some (.multi l))
  | _ => .error .typeError

/-- The function scandir of base_dataset.py.  It validates dir_path and
suffix eagerly (raising TypeError without touching the filesystem) and then
returns the generator; the Except.ok payload is that generator fully
consumed, as a pair of yielded paths and an error flag (see scanEntries).
The tree argument is the filesystem content under dir_path. -/
def scandir (dir_path suffix : PyVal) (recursive : Bool) (tree : List FsEntry) : Except PyErr (List String × Bool) :=
  if isStrOrPath dir_path then
    match parseSuffix suffix with
    | .ok s => .ok (scanEntries s recursive "" tree)
    | .error e => .error e
  else
    .error .typeError

/-- Python list(generator): the yielded items when consumption succeeds,
or the exception the generator raised partway through. -/
def pyList (g : List String × Bool) : Except PyErr (List String) :=
  if g.2 then .error .notADirectoryError else .ok g.1

/-- The fixed image-suffix allow-list IMG_EXTENSIONS of base_dataset.py. -/
def IMG_EXTENSIONS : List String :=
  [".jpg", ".JPG", ".jpeg", ".JPEG", ".png", ".PNG", ".ppm", ".PPM", ".bmp", ".BMP"]

/-- Result of os.path.join(path, v) for a relative v and a path without a
trailing separator. -/
def osPathJoin (p v : String) : String :=
  p ++ "/" ++ v

/-- The static method BaseDataset.scan_folder: validate path, run scandir
with suffix=IMG_EXTENSIONS and recursive=True, realize the generator with
list(), re-join every relative path with the path prefix, and assert the
result is non-empty (AssertionError otherwise). -/
def scan_folder (path : PyVal) (tree : List FsEntry) : Except PyErr (List String) :=
  if isStrOrPath path then
    let p := strOfPyVal path
    match scandir (.vstr p) (.vtuple IMG_EXTENSIONS) true tree with
    | .error e => .error e
    | .ok g =>
      match pyList g with
      | .error e => .error e
      | .ok samples =>
        let samples := samples.map (fun v => osPathJoin p v)
        if samples.isEmpty then .error .assertionError else .ok samples
  else
    .error .typeError

/-- State of a BaseDataset instance.  load_pipeline and transforms model the
duck-typed optional attributes: none means the attribute was never set, so
hasattr is false; a built pipeline object is always truthy in Python, so
presence decides the branch in __getitem__.  annotations is the list a
subclass's load_annotations must populate. -/
structure BaseDataset (α : Type) where
  load_pipeline : Option (α → α)
  transforms : Option (α → α)
  annotations : List α

/-- The constructor BaseDataset.__init__: a pipeline attribute is set only
when the corresponding config is truthy (a non-empty list; None and [] are
falsy), in which case the external builder is applied to the config.
annotations starts unpopulated (modelled as the empty list until
load_annotations runs). -/
def baseDatasetInit {κ α : Type} (load_pipeline transforms : List κ) (build_load_pipeline build_transforms : List κ → (α → α)) : BaseDataset α :=
  { load_pipeline := if load_pipeline.isEmpty then none else some (build_load_pipeline load_pipeline)
    transforms := if transforms.isEmpty then none else some (build_transforms transforms)
    annotations := [] }

/-- Effect of a subclass's load_annotations: it sets self.annotations. -/
def loadAnnotations {α : Type} (d : BaseDataset α) (anns : List α) : BaseDataset α :=
  { d with annotations := anns }

/-- Python list indexing self.annotations[idx]: a negative index counts from
the end (one addition of len, as CPython does), out-of-range raises
IndexError (modelled as none). -/
def pyIndex {α : Type} (l : List α) (i : Int) : Option α :=
  let j := if i < 0 then i + l.length else i
  if j < 0 then none else l[j.toNat]?

/-- The pipeline application sequence of __getitem__: if the load_pipeline
attribute is present (and truthy) apply it, then if the transforms attribute
is present (and truthy) apply it. -/
def applyPipelines {α : Type} (d : BaseDataset α) (datas : α) : α :=
  let datas := match d.load_pipeline with
    | some f => f datas
    | none => datas
  match d.transforms with
  | some f => f datas
  | none => datas

/-- The method BaseDataset.__getitem__: fetch annotations[idx], run it
through the optional pipelines in load-then-transform order, return it. -/
def BaseDataset.getitem {α : Type} (d : BaseDataset α) (idx : Int) : Option α :=
  (pyIndex d.annotations idx).map (applyPipelines d)

/-- The method BaseDataset.__len__: len(self.annotations). -/
def BaseDataset.lenDataset {α : Type} (d : BaseDataset α) : Nat :=
  d.annotations.length

example : scan_folder (.vstr "/data/imgs") [FsEntry.file "a.png", FsEntry.file "b.txt", FsEntry.file ".hidden.png", FsEntry.dir "sub" [FsEntry.file "c.jpg"]] = .error .notADirectoryError := by
  simp +decide [scan_folder, scandir, parseSuffix, pyList, scanEntries, IMG_EXTENSIONS]

example : scan_folder (.vstr "/data/imgs") [FsEntry.file "a.png", FsEntry.file "b.txt", FsEntry.dir "sub" [FsEntry.file "c.jpg"]] = .ok ["/data/imgs/a.png", "/data/imgs/sub/c.jpg"] := by
  simp +decide [scan_folder, scandir, parseSuffix, pyList, scanEntries, IMG_EXTENSIONS, osPathJoin, strOfPyVal, isStrOrPath]

/-- A directory tree with no hidden entry at any depth: no entry name, file
or directory, begins with a dot. -/
def noHiddenList : List FsEntry → Bool
  | [] => true
  | FsEntry.file n :: rest => !startsWithDot n && noHiddenList rest
  | FsEntry.dir n cs :: rest => !startsWithDot n && noHiddenList cs && noHiddenList rest

/-- All regular-file paths in a tree, joined against the given prefix, in
enumeration order, one occurrence per file node. -/
def filesUnder : String → List FsEntry → List String
  | _, [] => []
  | pre, FsEntry.file name :: rest => joinRel pre name :: filesUnder pre rest
  | pre, FsEntry.dir name cs :: rest => filesUnder (joinRel pre name) cs ++ filesUnder pre rest

/-- What a non-recursive scan can yield from one immediate entry: the name of
a non-hidden regular file passing the suffix test, nothing otherwise. -/
def topFileYield (s : Option PySuffix) (pre : String) : FsEntry → Option String
  | FsEntry.file n => if !startsWithDot n && suffixMatch s (joinRel pre n) then some (joinRel pre n) else none
  | FsEntry.dir _ _ => none

/-- Negation of the suffix TypeError condition of scandir: the argument is
None, a str, or a tuple. -/
def suffixAccepted : PyVal → Bool
  | .vnone => true
  | .vstr _ => true
  | .vtuple _ => true
  | _ => false

/-- A concrete dataset state with a load pipeline that adds one, no
transforms attribute, and two annotations. -/
def exampleDataset : BaseDataset Nat :=
  { load_pipeline := some (fun n => n + 1), transforms := none, annotations := [5, 6] }

theorem scanEntries_false_eq (s : Option PySuffix) (pre : String) (es : List FsEntry) :
    scanEntries s false pre es = (es.filterMap (topFileYield s pre), false) := by
  induction es with
  | nil => simp [scanEntries]
  | cons e rest ih =>
    cases e with
    | file n =>
      by_cases hd : startsWithDot n
      · simp [scanEntries, hd, topFileYield, ih]
      · by_cases hm : suffixMatch s (joinRel pre n) <;>
          simp [scanEntries, hd, hm, topFileYield, ih]
    | dir n cs => simp [scanEntries, topFileYield, ih]

theorem scanEntries_true_of_noHidden (s : Option PySuffix) (pre : String) (es : List FsEntry)
    (h : noHiddenList es = true) :
    scanEntries s true pre es = ((filesUnder pre es).filter (fun p => suffixMatch s p), false) := by
  induction pre, es using filesUnder.induct with
  | case1 pre => simp [scanEntries, filesUnder]
  | case2 pre name rest ih =>
    simp only [noHiddenList, Bool.and_eq_true, Bool.not_eq_true'] at h
    by_cases hm : suffixMatch s (joinRel pre name) <;>
      simp [scanEntries, h.1, hm, filesUnder, ih h.2, List.filter_cons]
  | case3 pre name cs rest ih1 ih2 =>
    simp only [noHiddenList, Bool.and_eq_true, Bool.not_eq_true'] at h
    simp [scanEntries, filesUnder, ih1 h.1.2, ih2 h.2, List.filter_append]

/-- C1: the claim says the scanner never descends into a hidden directory.
Evaluation at the failing input: a tree whose only entry is the hidden
directory ".h" holding the regular file "x.png".  With recursive=True the
scanner descends into ".h" (its name starts with a dot) and yields
".h/x.png", because the else branch of _scandir recurses into every entry
that is not a non-hidden regular file, without testing entry.is_dir or the
leading dot. -/
theorem c1_hidden_dir_descended :
    startsWithDot ".h" = true ∧
    scanEntries none true "" [FsEntry.dir ".h" [FsEntry.file "x.png"]] = ([".h/x.png"], false) := by
  refine ⟨by decide, ?_⟩
  simp +decide [scanEntries]

/-- C2: the claim says scan_folder on the folder holding a.png, b.txt,
.hidden.png and sub/c.jpg returns a list with /data/imgs/a.png and
/data/imgs/sub/c.jpg.  Evaluation shows the call instead raises
NotADirectoryError: with recursive=True the hidden regular file
.hidden.png falls to the else branch of _scandir, which calls os.scandir
on it; list() then propagates the exception, so no list is returned. -/
theorem c2_scan_folder_raises :
    scan_folder (.vstr "/data/imgs")
      [FsEntry.file "a.png", FsEntry.file "b.txt", FsEntry.file ".hidden.png",
       FsEntry.dir "sub" [FsEntry.file "c.jpg"]] = .error .notADirectoryError := by
  simp +decide [scan_folder, scandir, parseSuffix, pyList, scanEntries, IMG_EXTENSIONS]

/-- C3 counterexample: the claim says every regular non-hidden file under D
is yielded exactly once under recursive=True.  In the tree holding the
hidden file ".secret" followed by the regular file "a.png", consumption
raises NotADirectoryError before reaching "a.png" (the error flag is true),
and the yield list is empty: the non-hidden file "a.png" is never yielded. -/
theorem c3_counterexample :
    startsWithDot "a.png" = false ∧
    scanEntries none true "" [FsEntry.file ".secret", FsEntry.file "a.png"] = ([], true) := by
  refine ⟨by decide, ?_⟩
  simp +decide [scanEntries]

/-- C3 (amended): on a tree with no hidden entries at any depth, scanning
with recursive=True and no suffix filter yields exactly the list of all
regular-file paths — one occurrence per file node, at any nesting depth —
and each yielded path is joined from the original root, not from the
file's immediate parent. -/
theorem c3_recursive_complete (tree : List FsEntry) (h : noHiddenList tree = true) :
    scanEntries none true "" tree = (filesUnder "" tree, false) := by
  rw [scanEntries_true_of_noHidden none "" tree h]
  simp [suffixMatch]

/-- Witness for c3_recursive_complete at a concrete two-level tree. -/
theorem c3_witness :
    noHiddenList [FsEntry.file "a.png", FsEntry.dir "sub" [FsEntry.file "c.jpg"]] = true ∧
    scanEntries none true "" [FsEntry.file "a.png", FsEntry.dir "sub" [FsEntry.file "c.jpg"]] =
      (filesUnder "" [FsEntry.file "a.png", FsEntry.dir "sub" [FsEntry.file "c.jpg"]], false) :=
  ⟨by simp +decide [noHiddenList],
   c3_recursive_complete _ (by simp +decide [noHiddenList])⟩

/-- C4: for a dataset constructed with both a load-pipeline config and a
transforms config (both non-empty, hence truthy) and a valid index i,
__getitem__ returns transforms(load_pipeline(annotations[i])): the load
pipeline runs first, the transform pipeline second. -/
theorem c4_load_then_transform {κ α : Type} (lc tc : List κ)
    (bl bt : List κ → (α → α)) (anns : List α) (i : Int) (a : α)
    (hlc : lc ≠ []) (htc : tc ≠ []) (h0 : 0 ≤ i) (ha : anns[i.toNat]? = some a) :
    (loadAnnotations (baseDatasetInit lc tc bl bt) anns).getitem i = some (bt tc (bl lc a)) := by
  have hi : ¬ i < 0 := not_lt.mpr h0
  cases lc with
  | nil => exact absurd rfl hlc
  | cons c lcs =>
    cases tc with
    | nil => exact absurd rfl htc
    | cons d tcs =>
      simp [BaseDataset.getitem, pyIndex, loadAnnotations, baseDatasetInit,
            applyPipelines, hi, ha]

/-- Witness for c4_load_then_transform: annotations [10, 20], index 1, load
pipeline adds one, transform pipeline doubles; the result is (20+1)*2. -/
theorem c4_witness :
    (([0] : List Nat) ≠ []) ∧ (([1] : List Nat) ≠ []) ∧ ((0 : Int) ≤ 1) ∧
    (([10, 20] : List Nat)[(1 : Int).toNat]? = some 20) ∧
    (loadAnnotations (baseDatasetInit [0] [1] (fun _ n => n + 1) (fun _ n => n * 2)) [10, 20]).getitem 1 = some 42 :=
  ⟨by decide, by decide, by decide, by decide,
   c4_load_then_transform [0] [1] (fun _ n => n + 1) (fun _ n => n * 2) [10, 20] 1 20
     (by decide) (by decide) (by decide) (by decide)⟩

/-- C5 counterexample: the claim says a set of strings is an accepted suffix
filter.  Passing a set makes scandir raise TypeError at once, because the
validation accepts only None, str and tuple. -/
theorem c5_set_rejected :
    scandir (.vstr "d") (.vset [".png"]) false [] = .error .typeError := by
  simp [scandir, parseSuffix, isStrOrPath]

/-- C5 (amended): the scanner accepts as suffix an absent value, a single
string, or a tuple of strings (tuple elements are not themselves checked);
any other suffix type — a set included — makes it fail with a TypeError. -/
theorem c5_suffix_types (p : String) (s : PyVal) (r : Bool) (tree : List FsEntry) :
    scandir (.vstr p) s r tree = .error .typeError ↔ suffixAccepted s = false := by
  cases s <;> simp [scandir, parseSuffix, isStrOrPath, suffixAccepted]

/-- C6: with recursive=False the scan cannot fail, yields exactly the
non-hidden immediate regular-file children passing the suffix test (so a
directory entry is neither yielded nor descended into), and — as entry
names hold no separator — no yielded path contains a path separator. -/
theorem c6_nonrecursive_top_level_only (tree : List FsEntry) (s : Option PySuffix)
    (h : ∀ e ∈ tree, ('/' : Char) ∉ (FsEntry.name e).data) :
    (scanEntries s false "" tree).2 = false ∧
    (scanEntries s false "" tree).1 = tree.filterMap (topFileYield s "") ∧
    ∀ p ∈ (scanEntries s false "" tree).1, ('/' : Char) ∉ p.data := by
  rw [scanEntries_false_eq]
  refine ⟨rfl, rfl, ?_⟩
  intro p hp
  simp only [List.mem_filterMap] at hp
  obtain ⟨e, he, hye⟩ := hp
  cases e with
  | file n =>
    simp only [topFileYield, Option.ite_none_right_eq_some, Option.some.injEq] at hye
    have hn : p = n := by
      have := hye.2
      simpa [joinRel] using this.symm
    subst hn
    simpa [FsEntry.name] using h _ he
  | dir n cs => simp [topFileYield] at hye

/-- Witness for c6_nonrecursive_top_level_only at a concrete tree with a
file, a subdirectory and a hidden file. -/
theorem c6_witness :
    (∀ e ∈ [FsEntry.file "a.png", FsEntry.dir "sub" [FsEntry.file "c.jpg"], FsEntry.file ".x"],
      ('/' : Char) ∉ (FsEntry.name e).data) ∧
    ((scanEntries none false "" [FsEntry.file "a.png", FsEntry.dir "sub" [FsEntry.file "c.jpg"], FsEntry.file ".x"]).2 = false ∧
     (scanEntries none false "" [FsEntry.file "a.png", FsEntry.dir "sub" [FsEntry.file "c.jpg"], FsEntry.file ".x"]).1 =
       [FsEntry.file "a.png", FsEntry.dir "sub" [FsEntry.file "c.jpg"], FsEntry.file ".x"].filterMap (topFileYield none "") ∧
     ∀ p ∈ (scanEntries none false "" [FsEntry.file "a.png", FsEntry.dir "sub" [FsEntry.file "c.jpg"], FsEntry.file ".x"]).1,
       ('/' : Char) ∉ p.data) :=
  ⟨by decide, c6_nonrecursive_top_level_only _ none (by decide)⟩

/-- C7: for a dataset constructed with neither a load-pipeline config nor a
transforms config (both falsy, so neither attribute is ever set) and any
valid index i, __getitem__ returns annotations[i] unchanged. -/
theorem c7_identity_when_unconfigured {κ α : Type} (bl bt : List κ → (α → α))
    (anns : List α) (i : Int) (a : α) (h0 : 0 ≤ i) (ha : anns[i.toNat]? = some a) :
    (loadAnnotations (baseDatasetInit ([] : List κ) [] bl bt) anns).getitem i = some a := by
  have hi : ¬ i < 0 := not_lt.mpr h0
  simp [BaseDataset.getitem, pyIndex, loadAnnotations, baseDatasetInit,
        applyPipelines, hi, ha]

/-- Witness for c7_identity_when_unconfigured: annotations [10, 20, 30] and
index 2 give back 30 untouched. -/
theorem c7_witness :
    ((0 : Int) ≤ 2) ∧ (([10, 20, 30] : List Nat)[(2 : Int).toNat]? = some 30) ∧
    (loadAnnotations (baseDatasetInit ([] : List Nat) [] (fun _ n => n + 1) (fun _ n => n * 2)) [10, 20, 30]).getitem 2 = some 30 :=
  ⟨by decide, by decide,
   c7_identity_when_unconfigured (fun _ n => n + 1) (fun _ n => n * 2) [10, 20, 30] 2 30
     (by decide) (by decide)⟩

/-- C8 counterexample: the claim says that, apart from the empty-scan
assertion failure, scan_folder returns a non-empty prefixed list.  On the
tree holding the matching image a.png and the hidden file .h, scan_folder
raises NotADirectoryError instead of returning a list, although a matching
image is present. -/
theorem c8_counterexample :
    strEndsWith "a.png" ".png" = true ∧
    scan_folder (.vstr "/d") [FsEntry.file "a.png", FsEntry.file ".h"] = .error .notADirectoryError := by
  refine ⟨by decide, ?_⟩
  simp +decide [scan_folder, scandir, parseSuffix, pyList, scanEntries, IMG_EXTENSIONS]

/-- C8 (amended): on a tree with no hidden entries, scan_folder fails with
AssertionError exactly when no file matches the fixed image-suffix list,
and any returned list is non-empty with every entry prefixed by path. -/
theorem c8_scan_folder_contract (p : String) (tree : List FsEntry) (h : noHiddenList tree = true) :
    (scan_folder (.vstr p) tree = .error .assertionError ↔
      (filesUnder "" tree).filter (fun q => suffixMatch (some (.multi IMG_EXTENSIONS)) q) = []) ∧
    (∀ l, scan_folder (.vstr p) tree = .ok l →
      l ≠ [] ∧ ∀ x ∈ l, ∃ v, x = p ++ "/" ++ v) := by
  have hs := scanEntries_true_of_noHidden (some (.multi IMG_EXTENSIONS)) "" tree h
  by_cases hys : (filesUnder "" tree).filter (fun q => suffixMatch (some (.multi IMG_EXTENSIONS)) q) = [] <;>
    simp [scan_folder, scandir, parseSuffix, isStrOrPath, strOfPyVal, pyList, hs, hys, osPathJoin]
  intro l v _ _ hx
  exact ⟨v, hx.symm⟩

/-- Witness for c8_scan_folder_contract on a tree with one matching image. -/
theorem c8_witness :
    noHiddenList [FsEntry.file "a.png", FsEntry.file "b.txt"] = true ∧
    ((scan_folder (.vstr "/d") [FsEntry.file "a.png", FsEntry.file "b.txt"] = .error .assertionError ↔
      (filesUnder "" [FsEntry.file "a.png", FsEntry.file "b.txt"]).filter
        (fun q => suffixMatch (some (.multi IMG_EXTENSIONS)) q) = []) ∧
     (∀ l, scan_folder (.vstr "/d") [FsEntry.file "a.png", FsEntry.file "b.txt"] = .ok l →
       l ≠ [] ∧ ∀ x ∈ l, ∃ v, x = "/d" ++ "/" ++ v)) :=
  ⟨by simp +decide [noHiddenList],
   c8_scan_folder_contract "/d" _ (by simp +decide [noHiddenList])⟩

/-- C9: when dir_path (or scan_folder's path) is neither a str nor a Path,
both calls raise TypeError, and they do so for every filesystem tree alike:
the validation precedes, and is independent of, any filesystem access. -/
theorem c9_type_error_before_io (v s : PyVal) (r : Bool) (tree : List FsEntry)
    (h : isStrOrPath v = false) :
    scandir v s r tree = .error .typeError ∧ scan_folder v tree = .error .typeError := by
  simp [scandir, scan_folder, h]

/-- Witness for c9_type_error_before_io with an int argument. -/
theorem c9_witness :
    isStrOrPath (.vint 3) = false ∧
    (scandir (.vint 3) .vnone false [FsEntry.file "a.png"] = .error .typeError ∧
     scan_folder (.vint 3) [FsEntry.file "a.png"] = .error .typeError) :=
  ⟨by decide, c9_type_error_before_io (.vint 3) .vnone false [FsEntry.file "a.png"] (by decide)⟩

/-- C10: for a dataset with N annotations and -N ≤ i < 0, __getitem__ does
not fail: Python list indexing resolves annotations[N + i] and the value is
run through the configured pipelines. -/
theorem c10_negative_index {α : Type} (d : BaseDataset α) (i : Int)
    (hl : -(d.annotations.length : Int) ≤ i) (hi : i < 0) :
    ∃ a, d.annotations[(i + d.annotations.length).toNat]? = some a ∧
      d.getitem i = some (applyPipelines d a) := by
  have hlt : (i + (d.annotations.length : Int)).toNat < d.annotations.length := by omega
  have hj : ¬ (i + (d.annotations.length : Int) < 0) := by omega
  refine ⟨d.annotations.get ⟨(i + (d.annotations.length : Int)).toNat, hlt⟩, ?_, ?_⟩
  · exact List.getElem?_eq_getElem hlt
  · simp [BaseDataset.getitem, pyIndex, hi, hj, List.getElem?_eq_getElem hlt]

/-- Witness for c10_negative_index: index -1 on two annotations resolves
annotations[1] = 6 and the load pipeline maps it to 7. -/
theorem c10_witness :
    (-(exampleDataset.annotations.length : Int) ≤ -1) ∧ ((-1 : Int) < 0) ∧
    ∃ a, exampleDataset.annotations[((-1 : Int) + exampleDataset.annotations.length).toNat]? = some a ∧
      exampleDataset.getitem (-1) = some (applyPipelines exampleDataset a) :=
  ⟨by decide, by decide, c10_negative_index exampleDataset (-1) (by decide) (by decide)⟩

end PaddleGanSpec
